import Mathlib

/-!
# logmgr abort pipeline (`src/logmgr_abort.c`)

A shallow embedding of the crash-capture-and-replay code of the logmgr package:
the virtual console device (`_console_write`), the boot recovery pass
(`_logmgr_tsl_cb`, `_logmgr_pkgs_init`, `logmgr_abort_init`) and the two abort
hooks (`logmgr_exception_hook`, `logmgr_assert_hook`).

Conventions.
* Preprocessor symbols tested with `#ifdef` are boolean fields of `Config`;
  overridable `#define`s and constants that come from headers outside the file
  are fields of `Config` as well.
* The file-scope variables (`is_init`, `g_tsdb`, `g_console_dev`,
  `g_def_device`) and the recovery file are fields of `State`.
* Every call that leaves the file (FlashDB, the device layer, POSIX file
  calls, ulog, `rt_kprintf`, the diagnostic producers) is recorded, in program
  order, as an `Event` in `State.trace`.
* Results of those calls that the file cannot determine come from `Env`.
* A byte buffer `(const void *buffer, rt_size_t size)` is a `Bytes` value whose
  length is `size`.
-/

namespace Logmgr

/-- Byte strings: log payloads, file contents, console output. -/
abbrev Bytes := List Nat

/-- Build configuration of `logmgr_abort.c`: one boolean per symbol the file
tests with `#ifdef`, the overridable `#define`s, and the constants the file
takes from other headers. -/
structure Config where
  PKG_USING_FLASHDB : Bool
  LOGMGR_USING_CMBACKTRACE : Bool
  PKG_USING_CMBACKTRACE : Bool
  LOGMGR_USING_IPC_LOG : Bool
  LOGMGR_USING_KDB : Bool
  PKG_USING_KDB : Bool
  LOGMGR_USING_SYS_LOAD_MONITOR : Bool
  PKG_USING_SYS_LOAD_MONITOR : Bool
  LOGMGR_USING_MEMORY_LOG : Bool
  RT_USING_HEAP : Bool
  RT_USING_MEMHEAP_AS_HEAP : Bool
  PKG_JMEM_STATS : Bool
  RT_USING_SEMAPHORE : Bool
  RT_USING_EVENT : Bool
  RT_USING_MUTEX : Bool
  RT_USING_MAILBOX : Bool
  RT_USING_MESSAGEQUEUE : Bool
  LOGMGR_FLASHDB_PART_NAME : String
  LOGMGR_FLASHDB_MAX_LEN : Nat
  LOGMGR_FLASHDB_MAX_SIZE : Nat
  LOGMGR_ABORT_FILE_PATH : String
  RT_CONSOLE_DEVICE_NAME : String
  RT_DEVICE_FLAG_STREAM : Nat
  __DATE__ : String
  __TIME__ : String
  deriving Repr

/-- The name under which the virtual console device is registered. -/
def LOGMGR_CONSOLE_NAME : String := "logmgr"

/-- Sector size handed to the time-series store. -/
def LOGMGR_FLASHDB_SECTOR_SIZE : Nat := 4096

/-- Calls that leave `logmgr_abort.c`, with the arguments that matter. -/
inductive Event where
  | LOG_E (msg : String)
  | LOG_W (msg : String)
  | LOG_I (msg : String)
  | rt_kprintf (text : String)
  | rt_console_set_device (name : String)
  | exception_hook (context : Nat)
  | assert_hook (ex func : String) (line : Nat)
  | list_sem
  | list_event
  | list_mutex
  | list_mailbox
  | list_msgqueue
  | list_memheap
  | list_mem
  | jmem_heap
  | kdb_sys_stop_dump
  | sys_load_monitor_dump
  | fdb_tsdb_control_sec_size (v : Nat)
  | fdb_tsdb_control_max_size (v : Nat)
  | fdb_tsdb_init (name part : String) (max_len : Nat)
  | fdb_tsl_query_count (lo hi : Int)
  | fdb_tsl_iter
  | fdb_tsl_clean
  | fdb_tsl_append (blob : Bytes)
  | open_ (path : String)
  | lseek_end (fd : Int)
  | write (fd : Int) (data : Bytes)
  | close (fd : Int)
  | rt_cm_backtrace_init
  | kdb_sys_init
  | kdb_sys_start
  | sys_load_monitor_init
  | rt_device_register (name : String)
  | rt_device_find (name : String)
  | rt_device_write (dev : String) (open_flag : Nat) (pos : Int) (buffer : Bytes)
  | rt_hw_exception_install
  | rt_assert_set_hook
  deriving DecidableEq, Repr

/-- The part of `struct rt_device` the file reads or writes: the registered
name, the `open_flag` word (`rt_uint16_t`), and the bytes the device has put
out so far. -/
structure rt_device where
  name : String
  open_flag : Nat
  tx : Bytes
  deriving DecidableEq, Repr

/-- Modelled from the spec: the FlashDB time-series store behind `g_tsdb`
(FlashDB is an external package). Per the store contract of section 4.1 it is
a sequence of records kept in append order; `medium_ok` says whether the
medium can be prepared when the store is opened; `sec_size` and `max_size`
are the bounds set with `fdb_tsdb_control`. -/
structure fdb_tsdb where
  medium_ok : Bool
  sec_size : Nat
  max_size : Nat
  logs : List Bytes
  deriving DecidableEq, Repr

/-- File-scope state of `logmgr_abort.c` together with the recovery file
(`none` when the file does not exist) and the trace of outgoing calls. -/
structure State where
  is_init : Bool
  g_tsdb : fdb_tsdb
  g_console_dev : rt_device
  g_def_device : Option rt_device
  abort_file : Option Bytes
  trace : List Event
  deriving DecidableEq, Repr

/-- Results of outgoing calls that the file cannot determine. -/
structure Env where
  /-- Does `fdb_tsl_append` return `FDB_NO_ERR` for this store content and blob. -/
  fdb_tsl_append_ok : List Bytes → Bytes → Bool
  /-- Descriptor returned by `open` on the recovery file (negative on failure). -/
  open_ret : Int
  /-- Return value of `write`, given the current file length and the data. -/
  write_ret : Nat → Bytes → Int
  /-- Return value of `rt_device_write` on the original console. -/
  rt_device_write_ret : rt_device → Bytes → Nat
  /-- Does `rt_device_register` return `RT_EOK`. -/
  rt_device_register_ok : Bool
  /-- Result of `rt_device_find (RT_CONSOLE_DEVICE_NAME)`. -/
  rt_device_find_ret : Option rt_device
  /-- Value returned by a call made from a hook (a diagnostic producer, the
  console switch or `rt_kprintf`). -/
  call_ret : Event → Int

/-- Append one outgoing call to the trace. -/
def State.emit (s : State) (e : Event) : State :=
  { s with trace := s.trace ++ [e] }

/-! ## The virtual console device -/

/-- Modelled from the spec: `fdb_tsl_append (&g_tsdb, blob)` of FlashDB. On
success the blob becomes the last record of the store; on failure the store
is unchanged. The boolean is `result == FDB_NO_ERR`. -/
def fdb_tsl_append (env : Env) (s : State) (blob : Bytes) : Bool × State :=
  let s1 := s.emit (Event.fdb_tsl_append blob)
  if env.fdb_tsl_append_ok s.g_tsdb.logs blob then
    (true, { s1 with g_tsdb := { s1.g_tsdb with logs := s1.g_tsdb.logs ++ [blob] } })
  else
    (false, s1)

/-- Modelled from the spec: `rt_device_write (dev, pos, buffer, size)` of the
device layer: the device puts out as many bytes as the call reports. -/
def rt_device_write (env : Env) (s : State) (dev : rt_device) (pos : Int) (buffer : Bytes) :
    Nat × rt_device × State :=
  let n := env.rt_device_write_ret dev buffer
  (n, { dev with tx := dev.tx ++ buffer.take n },
    s.emit (Event.rt_device_write dev.name dev.open_flag pos buffer))

/-- The tail of `_console_write` (lines 293-303): forward the buffer to the
original console device when there is one, with `RT_DEVICE_FLAG_STREAM`
forced for the duration of the write, and return `size`. -/
def _console_write_forward (cfg : Config) (env : Env) (s : State) (buffer : Bytes) :
    Nat × State :=
  match s.g_def_device with
  | some d =>
    let old_flag := d.open_flag
    let d1 := { d with open_flag := (d.open_flag ||| cfg.RT_DEVICE_FLAG_STREAM) % 65536 }
    let r := rt_device_write env s d1 0 buffer
    let d2 := { r.2.1 with open_flag := old_flag }
    (buffer.length, { r.2.2 with g_def_device := some d2 })
  | none => (buffer.length, s)

/-- The `write` operation of the virtual console device. `buffer` stands for
the C pair `(buffer, size)` with `size = buffer.length`; `RT_ASSERT (buffer)`
holds because a `Bytes` value is a non-null buffer. -/
def _console_write (cfg : Config) (env : Env) (s : State) (_pos : Int) (buffer : Bytes) :
    Nat × State :=
  if cfg.PKG_USING_FLASHDB then
    if !s.is_init then (0, s)
    else
      let r := fdb_tsl_append env s buffer
      if !r.1 then (0, r.2)
      else _console_write_forward cfg env r.2 buffer
  else _console_write_forward cfg env s buffer

/-! ## Boot recovery -/

/-- Modelled from the spec: `fdb_tsdb_control` with `FDB_TSDB_CTRL_SET_SEC_SIZE`
(`configure` of the store contract). -/
def fdb_tsdb_control_sec_size (s : State) (v : Nat) : State :=
  { s.emit (Event.fdb_tsdb_control_sec_size v) with g_tsdb := { s.g_tsdb with sec_size := v } }

/-- Modelled from the spec: `fdb_tsdb_control` with `FDB_TSDB_CTRL_SET_MAX_SIZE`
(`configure` of the store contract). -/
def fdb_tsdb_control_max_size (s : State) (v : Nat) : State :=
  { s.emit (Event.fdb_tsdb_control_max_size v) with g_tsdb := { s.g_tsdb with max_size := v } }

/-- Modelled from the spec: `fdb_tsdb_init` of FlashDB (`open` of the store
contract): binds the store and fails when the medium cannot be prepared. The
records are not touched. The boolean is `result == FDB_NO_ERR`. -/
def fdb_tsdb_init (cfg : Config) (s : State) : Bool × State :=
  (s.g_tsdb.medium_ok,
    s.emit (Event.fdb_tsdb_init "logmgr" cfg.LOGMGR_FLASHDB_PART_NAME cfg.LOGMGR_FLASHDB_MAX_LEN))

/-- Modelled from the spec: `count_pending` of the store contract, the number
of records currently stored. -/
def count_pending (db : fdb_tsdb) : Nat := db.logs.length

/-- Modelled from the spec: `fdb_tsl_query_count (tsdb, 0, 0x7FFFFFFF,
FDB_TSL_WRITE)`. The range covers every value of the counter clock
`_logmgr_get_time` and every appended record has status `FDB_TSL_WRITE`, so the
query is `count_pending`. -/
def fdb_tsl_query_count (s : State) (lo hi : Int) : Nat × State :=
  (count_pending s.g_tsdb, s.emit (Event.fdb_tsl_query_count lo hi))

/-- POSIX `open (LOGMGR_ABORT_FILE_PATH, O_RDWR | O_CREAT | O_TRUNC)`: on
success the file exists and is empty; on failure the file system is unchanged. -/
def open_ (cfg : Config) (env : Env) (s : State) : Int × State :=
  let s1 := s.emit (Event.open_ cfg.LOGMGR_ABORT_FILE_PATH)
  if env.open_ret < 0 then (env.open_ret, s1)
  else (env.open_ret, { s1 with abort_file := some [] })

/-- POSIX `lseek (fd, 0, SEEK_END)`: the offset moves to the end of the file,
which is where `write` below puts its data. -/
def lseek_end (s : State) (fd : Int) : State :=
  s.emit (Event.lseek_end fd)

/-- POSIX `write (fd, data, len)` on the recovery file, `buf` being the `len`
bytes at `data`. When the call returns `r > 0` the first `r` bytes of `buf`
are added at the end of the file; otherwise the file is unchanged. -/
def write (env : Env) (s : State) (fd : Int) (buf : Bytes) : Int × State :=
  let content := s.abort_file.getD []
  let r := env.write_ret content.length buf
  let s1 := s.emit (Event.write fd buf)
  if r ≤ 0 then (r, s1)
  else (r, { s1 with abort_file := some (content ++ buf.take r.toNat) })

/-- POSIX `close (fd)`. -/
def close (s : State) (fd : Int) : State :=
  s.emit (Event.close fd)

/-- The flashdb iterator callback. `tsl` is the stored payload of the visited
record, `tsl.length` its `log_len`. The payload is read into the local buffer
`data[LOGMGR_FLASHDB_MAX_LEN]`; a record longer than the buffer overruns it,
which is undefined behaviour (`none`). `fdb_blob_read` returns the number of
bytes read, here `log_len`. The result of `write` is dropped and the callback
returns `false` (go on iterating). -/
def _logmgr_tsl_cb (cfg : Config) (env : Env) (tsl : Bytes) (fd : Int) (s : State) :
    Option (Bool × State) :=
  if cfg.LOGMGR_FLASHDB_MAX_LEN < tsl.length then none
  else
    let data : Bytes := tsl ++ List.replicate (cfg.LOGMGR_FLASHDB_MAX_LEN - tsl.length) 0
    let data_len := tsl.length
    let w := write env s fd (data.take data_len)
    some (false, w.2)

/-- Modelled from the spec: the record walk of `fdb_tsl_iter` (`iterate` of
the store contract): the callback sees the records in append order and a
callback that returns `true` ends the walk. -/
def fdb_tsl_iter_loop (cb : Bytes → State → Option (Bool × State)) :
    List Bytes → State → Option State
  | [], s => some s
  | tsl :: rest, s =>
    match cb tsl s with
    | none => none
    | some (true, s1) => some s1
    | some (false, s1) => fdb_tsl_iter_loop cb rest s1

/-- Modelled from the spec: `fdb_tsl_iter (tsdb, cb, arg)` of FlashDB. -/
def fdb_tsl_iter (cb : Bytes → State → Option (Bool × State)) (s : State) : Option State :=
  fdb_tsl_iter_loop cb s.g_tsdb.logs (s.emit Event.fdb_tsl_iter)

/-- Modelled from the spec: `fdb_tsl_clean` of FlashDB (`clear` of the store
contract): removes all records. -/
def fdb_tsl_clean (s : State) : State :=
  { s.emit Event.fdb_tsl_clean with g_tsdb := { s.g_tsdb with logs := [] } }

/-- Lines 260-271 of `_logmgr_pkgs_init`: start the optional packages and
return 0. -/
def _logmgr_pkgs_init_packages (cfg : Config) (s : State) : Int × State :=
  let s1 := if cfg.LOGMGR_USING_CMBACKTRACE then s.emit Event.rt_cm_backtrace_init else s
  let s2 := if cfg.PKG_USING_KDB then (s1.emit Event.kdb_sys_init).emit Event.kdb_sys_start else s1
  let s3 := if cfg.PKG_USING_SYS_LOAD_MONITOR then s2.emit Event.sys_load_monitor_init else s2
  (0, s3)

/-- Boot recovery, `_logmgr_pkgs_init`. The result is `none` when the run has
undefined behaviour (see `_logmgr_tsl_cb`), otherwise the returned `int` and
the state reached. -/
def _logmgr_pkgs_init (cfg : Config) (env : Env) (s : State) : Option (Int × State) :=
  if cfg.PKG_USING_FLASHDB then
    let sec_size := LOGMGR_FLASHDB_SECTOR_SIZE
    let db_size := cfg.LOGMGR_FLASHDB_MAX_SIZE
    let s1 := fdb_tsdb_control_sec_size s sec_size
    let s2 := fdb_tsdb_control_max_size s1 db_size
    let i := fdb_tsdb_init cfg s2
    if !i.1 then
      some (-1, i.2.emit (Event.LOG_E "logmgr flashdb tsdb initialized failed."))
    else
      let q := fdb_tsl_query_count i.2 0 0x7FFFFFFF
      if q.1 > 0 then
        let o := open_ cfg env q.2
        let fd := o.1
        if fd < 0 then
          some (-1, o.2.emit (Event.LOG_E "open logmgr abort file failed."))
        else
          let s3 := lseek_end o.2 fd
          match fdb_tsl_iter (fun tsl st => _logmgr_tsl_cb cfg env tsl fd st) s3 with
          | none => none
          | some s4 =>
            let s5 := fdb_tsl_clean s4
            let s6 := close s5 fd
            some (_logmgr_pkgs_init_packages cfg s6)
      else some (_logmgr_pkgs_init_packages cfg q.2)
  else some (_logmgr_pkgs_init_packages cfg s)

/-- Modelled from the spec: `rt_device_register (device, name, flags)` of the
device layer: on success the device carries the name it was registered
under. The boolean is `ret == RT_EOK`. -/
def rt_device_register (env : Env) (s : State) (name : String) : Bool × State :=
  let s1 := s.emit (Event.rt_device_register name)
  if env.rt_device_register_ok then
    (true, { s1 with g_console_dev := { s1.g_console_dev with name := name } })
  else (false, s1)

/-- The virtual console registration, `_logmgr_console_init`. -/
def _logmgr_console_init (cfg : Config) (env : Env) (s : State) : Int × State :=
  let r := rt_device_register env s LOGMGR_CONSOLE_NAME
  if !r.1 then (-1, r.2)
  else
    match r.2.g_def_device with
    | none =>
      (0, { r.2.emit (Event.rt_device_find cfg.RT_CONSOLE_DEVICE_NAME) with
              g_def_device := env.rt_device_find_ret })
    | some _ => (0, r.2)

/-- The public initialiser, `logmgr_abort_init`. -/
def logmgr_abort_init (cfg : Config) (env : Env) (s : State) : Option (Int × State) :=
  if s.is_init then
    some (0, s.emit (Event.LOG_W "logmgr abort is already initialized."))
  else
    match _logmgr_pkgs_init cfg env s with
    | none => none
    | some (r, s1) =>
      if r < 0 then
        some (-1, s1.emit (Event.LOG_E "logmgr packages initialize failed."))
      else
        let c := _logmgr_console_init cfg env s1
        if c.1 < 0 then
          some (-1, c.2.emit (Event.LOG_E "logmgr console initialized failed."))
        else
          let s2 := c.2.emit Event.rt_hw_exception_install
          let s3 := s2.emit Event.rt_assert_set_hook
          let s4 := { s3 with is_init := true }
          some (0, s4.emit (Event.LOG_I "logmgr abort initialized success."))

/-- Is the call one of the POSIX file calls. -/
def Event.is_file_call : Event → Bool
  | Event.open_ _ => true
  | Event.lseek_end _ => true
  | Event.write _ _ => true
  | Event.close _ => true
  | _ => false

/-- The data of a `write` call on the recovery file, if the call is one. -/
def Event.written : Event → Option Bytes
  | Event.write _ data => some data
  | _ => none

/-- The data handed to `write`, call by call, in the order of the calls. -/
def written_data (calls : List Event) : List Bytes :=
  calls.filterMap Event.written

/-! ## The abort hooks -/

/-- The banner, `printf_time_log`. -/
def printf_time_log (cfg : Config) : List Event :=
  [Event.rt_kprintf ("Logmgr Abort Start " ++ cfg.__DATE__ ++ " " ++ cfg.__TIME__ ++ "\n")]

/-- The sub-section header, `printf_second_header_log`: the precision of
`%.*s` is the length of the name, so the whole name is printed. -/
def printf_second_header_log (second_name : String) : List Event :=
  [Event.rt_kprintf ("\n/******  " ++ second_name ++ "  ******/\n")]

/-- The conversion `%20s`: right-justified in a field of 20 characters. -/
def fmt_20s (log_name : String) : String :=
  String.mk (List.replicate (20 - log_name.length) ' ') ++ log_name

/-- The section header, `print_header_log`. -/
def print_header_log (log_name : String) : List Event :=
  [ Event.rt_kprintf "\n",
    Event.rt_kprintf "/**********************************************************/\n",
    Event.rt_kprintf ("/**************     " ++ fmt_20s log_name ++ "     **************/\n"),
    Event.rt_kprintf "/**********************************************************/\n",
    Event.rt_kprintf "\n" ]

/-- The memory producer, `_logmgr_memory_log`. -/
def _logmgr_memory_log (cfg : Config) : List Event :=
  (if cfg.RT_USING_HEAP then
    printf_second_header_log "sys memory log" ++
      (if cfg.RT_USING_MEMHEAP_AS_HEAP then [Event.list_memheap] else [Event.list_mem])
   else []) ++
  (if cfg.PKG_JMEM_STATS then printf_second_header_log "js heap log" ++ [Event.jmem_heap]
   else [])

/-- The IPC producer, `_logmgr_ipc_log`. -/
def _logmgr_ipc_log (cfg : Config) : List Event :=
  (if cfg.RT_USING_SEMAPHORE then printf_second_header_log "semaphore log" ++ [Event.list_sem]
   else []) ++
  (if cfg.RT_USING_EVENT then printf_second_header_log "event log" ++ [Event.list_event]
   else []) ++
  (if cfg.RT_USING_MUTEX then printf_second_header_log "mutex log" ++ [Event.list_mutex]
   else []) ++
  (if cfg.RT_USING_MAILBOX then printf_second_header_log "mailbox log" ++ [Event.list_mailbox]
   else []) ++
  (if cfg.RT_USING_MESSAGEQUEUE then
    printf_second_header_log "messagqueue log" ++ [Event.list_msgqueue]
   else [])

/-- The console switch, `_logmgr_console_switch (device)`: the console is set
to the device of that name. -/
def _logmgr_console_switch (device : rt_device) : List Event :=
  [Event.rt_console_set_device device.name]

/-- The statements of `logmgr_exception_hook` ahead of its `while` loop
(lines 88-115), as the calls they make, in program order. -/
def logmgr_exception_hook_body (cfg : Config) (s : State) (context : Nat) : List Event :=
  _logmgr_console_switch s.g_console_dev ++
  printf_time_log cfg ++
  (if cfg.LOGMGR_USING_CMBACKTRACE then
    print_header_log "CmBacktrace Log" ++ [Event.exception_hook context] else []) ++
  (if cfg.LOGMGR_USING_IPC_LOG then
    print_header_log "System IPC Log" ++ _logmgr_ipc_log cfg else []) ++
  (if cfg.LOGMGR_USING_KDB then
    print_header_log "Kernel Running Log" ++ [Event.kdb_sys_stop_dump] else []) ++
  (if cfg.LOGMGR_USING_SYS_LOAD_MONITOR then
    print_header_log "System Load Log" ++ [Event.sys_load_monitor_dump] else []) ++
  (if cfg.LOGMGR_USING_MEMORY_LOG then
    print_header_log "System Memory Log" ++ _logmgr_memory_log cfg else [])

/-- The statements of `logmgr_assert_hook` ahead of its `while` loop
(lines 126-137), as the calls they make, in program order. -/
def logmgr_assert_hook_body (cfg : Config) (s : State) (ex func : String) (line : Nat) :
    List Event :=
  _logmgr_console_switch s.g_console_dev ++
  printf_time_log cfg ++
  (if cfg.PKG_USING_CMBACKTRACE then
    print_header_log "CmBacktrace Log" ++ [Event.assert_hook ex func line] else [])

/-- Where control is inside a hook: in the straight-line body, at the
`while (_continue == 1);` loop, or back in the caller. -/
inductive HookPc where
  | body
  | busy_wait
  | returned
  deriving DecidableEq, Repr

/-- A hook activation: the program point, the calls of the body still to be
made, the local `volatile uint8_t _continue`, the value returned by the last
call made (the hooks use none of these values), and the calls made so far. -/
structure HookRun where
  pc : HookPc
  todo : List Event
  _continue : Nat
  last_ret : Int
  trace : List Event
  deriving DecidableEq, Repr

/-- One step of a hook activation. In the body the next call is made (each
call is taken to return, with the value the environment gives it); after the
last one control reaches the loop. At the loop the condition `_continue == 1`
is tested: when it holds the loop goes round, otherwise control falls through
to the end of the function and the hook returns. Nothing in either hook
assigns `_continue`. -/
def HookRun.step (env : Env) (h : HookRun) : HookRun :=
  match h.pc with
  | HookPc.body =>
    match h.todo with
    | e :: rest => { h with todo := rest, last_ret := env.call_ret e, trace := h.trace ++ [e] }
    | [] => { h with pc := HookPc.busy_wait }
  | HookPc.busy_wait =>
    if h._continue == 1 then h else { h with pc := HookPc.returned }
  | HookPc.returned => h

/-- The activation after `n` steps. -/
def HookRun.run (env : Env) : Nat → HookRun → HookRun
  | 0, h => h
  | n + 1, h => HookRun.run env n (h.step env)

/-- Entry to `logmgr_exception_hook (context)`: `_continue` is initialised
to 1. -/
def logmgr_exception_hook (cfg : Config) (s : State) (context : Nat) : HookRun :=
  { pc := HookPc.body, todo := logmgr_exception_hook_body cfg s context,
    _continue := 1, last_ret := 0, trace := [] }

/-- Entry to `logmgr_assert_hook (ex, func, line)`: `_continue` is initialised
to 1. -/
def logmgr_assert_hook (cfg : Config) (s : State) (ex func : String) (line : Nat) : HookRun :=
  { pc := HookPc.body, todo := logmgr_assert_hook_body cfg s ex func line,
    _continue := 1, last_ret := 0, trace := [] }

/-- The diagnostic producers of the fault path. -/
inductive Producer where
  | backtrace
  | ipc_objects
  | kernel_trace
  | system_load
  | memory
  deriving DecidableEq, Repr

/-- The fixed order of the producers. -/
def Producer.order : List Producer :=
  [Producer.backtrace, Producer.ipc_objects, Producer.kernel_trace, Producer.system_load,
    Producer.memory]

/-- The configuration symbol that enables a producer on the fault path. -/
def Producer.enabled (cfg : Config) : Producer → Bool
  | Producer.backtrace => cfg.LOGMGR_USING_CMBACKTRACE
  | Producer.ipc_objects => cfg.LOGMGR_USING_IPC_LOG
  | Producer.kernel_trace => cfg.LOGMGR_USING_KDB
  | Producer.system_load => cfg.LOGMGR_USING_SYS_LOAD_MONITOR
  | Producer.memory => cfg.LOGMGR_USING_MEMORY_LOG

/-- The title line of the section header of a producer, as it appears on the
console: the section name right-justified in a field of 20 characters between
the two star borders. -/
def Producer.title_line : Producer → String
  | Producer.backtrace => "/**************          CmBacktrace Log     **************/\n"
  | Producer.ipc_objects => "/**************           System IPC Log     **************/\n"
  | Producer.kernel_trace => "/**************       Kernel Running Log     **************/\n"
  | Producer.system_load => "/**************          System Load Log     **************/\n"
  | Producer.memory => "/**************        System Memory Log     **************/\n"

/-- The section header of a producer, as console output: an empty line, a
line of stars, the title line, a line of stars, an empty line. -/
def Producer.section_header (p : Producer) : List Event :=
  [ Event.rt_kprintf "\n",
    Event.rt_kprintf "/**********************************************************/\n",
    Event.rt_kprintf p.title_line,
    Event.rt_kprintf "/**********************************************************/\n",
    Event.rt_kprintf "\n" ]

/-- One part of a producer that dumps several kinds of object: the symbol
that enables it, the sub-header line it prints, and the lister it calls. -/
structure SubDump where
  enabled : Bool
  header_line : String
  lister : Event

/-- The parts of the IPC producer, in order: semaphores, events, mutexes,
mailboxes, message queues, each present when the kernel has that object. -/
def ipc_parts (cfg : Config) : List SubDump :=
  [ { enabled := cfg.RT_USING_SEMAPHORE, header_line := "\n/******  semaphore log  ******/\n",
      lister := Event.list_sem },
    { enabled := cfg.RT_USING_EVENT, header_line := "\n/******  event log  ******/\n",
      lister := Event.list_event },
    { enabled := cfg.RT_USING_MUTEX, header_line := "\n/******  mutex log  ******/\n",
      lister := Event.list_mutex },
    { enabled := cfg.RT_USING_MAILBOX, header_line := "\n/******  mailbox log  ******/\n",
      lister := Event.list_mailbox },
    { enabled := cfg.RT_USING_MESSAGEQUEUE,
      header_line := "\n/******  messagqueue log  ******/\n",
      lister := Event.list_msgqueue } ]

/-- The parts of the memory producer, in order: the system heap (listed by
`list_memheap` when memheap serves as the heap, by `list_mem` otherwise) and
the JS heap. -/
def memory_parts (cfg : Config) : List SubDump :=
  [ { enabled := cfg.RT_USING_HEAP, header_line := "\n/******  sys memory log  ******/\n",
      lister := cond cfg.RT_USING_MEMHEAP_AS_HEAP Event.list_memheap Event.list_mem },
    { enabled := cfg.PKG_JMEM_STATS, header_line := "\n/******  js heap log  ******/\n",
      lister := Event.jmem_heap } ]

/-- The dump of a producer made of parts: for each enabled part, in order,
its sub-header line and then its lister. -/
def parts_dump (parts : List SubDump) : List Event :=
  ((parts.filter (fun d => d.enabled)).map
    (fun d => [Event.rt_kprintf d.header_line, d.lister])).flatten

/-- The dump of a producer on the fault path; only the backtrace producer
takes the fault context. -/
def Producer.dump (cfg : Config) (context : Nat) : Producer → List Event
  | Producer.backtrace => [Event.exception_hook context]
  | Producer.ipc_objects => parts_dump (ipc_parts cfg)
  | Producer.kernel_trace => [Event.kdb_sys_stop_dump]
  | Producer.system_load => [Event.sys_load_monitor_dump]
  | Producer.memory => parts_dump (memory_parts cfg)

/-- The fault sequence in the words of the specification, as the calls seen
from outside the file: redirect the console to the device named "logmgr";
print the session banner with the build date and time; then for each enabled
producer, in the fixed order, its section header immediately followed by its
dump. Nothing here refers to the functions of the embedded code. -/
def fault_sequence_spec (cfg : Config) (context : Nat) : List Event :=
  [ Event.rt_console_set_device "logmgr",
    Event.rt_kprintf ("Logmgr Abort Start " ++ cfg.__DATE__ ++ " " ++ cfg.__TIME__ ++ "\n") ] ++
  ((Producer.order.filter (Producer.enabled cfg)).map
    (fun p => p.section_header ++ p.dump cfg context)).flatten

/-- The title line of the section header `print_header_log log_name`. -/
def section_title (log_name : String) : Event :=
  Event.rt_kprintf ("/**************     " ++ fmt_20s log_name ++ "     **************/\n")

/-- Does a sequence of calls print the header of the section `log_name`. -/
def runs_section (log_name : String) (calls : List Event) : Bool :=
  decide (section_title log_name ∈ calls)

/-! ## Concrete builds and states used in the examples -/

/-- The default build: FlashDB and all five producers enabled, every
overridable constant at its default. -/
def cfg_all : Config :=
  { PKG_USING_FLASHDB := true, LOGMGR_USING_CMBACKTRACE := true, PKG_USING_CMBACKTRACE := true,
    LOGMGR_USING_IPC_LOG := true, LOGMGR_USING_KDB := true, PKG_USING_KDB := true,
    LOGMGR_USING_SYS_LOAD_MONITOR := true, PKG_USING_SYS_LOAD_MONITOR := true,
    LOGMGR_USING_MEMORY_LOG := true, RT_USING_HEAP := true, RT_USING_MEMHEAP_AS_HEAP := false,
    PKG_JMEM_STATS := false, RT_USING_SEMAPHORE := true, RT_USING_EVENT := true,
    RT_USING_MUTEX := true, RT_USING_MAILBOX := true, RT_USING_MESSAGEQUEUE := true,
    LOGMGR_FLASHDB_PART_NAME := "logmgr", LOGMGR_FLASHDB_MAX_LEN := 512,
    LOGMGR_FLASHDB_MAX_SIZE := 65536, LOGMGR_ABORT_FILE_PATH := "/abort.log",
    RT_CONSOLE_DEVICE_NAME := "uart0", RT_DEVICE_FLAG_STREAM := 0x040,
    __DATE__ := "Jan 13 2021", __TIME__ := "12:00:00" }

/-- A build with the CmBacktrace package selected (`PKG_USING_CMBACKTRACE`)
while the logmgr option `LOGMGR_USING_CMBACKTRACE` is off. -/
def cfg_pkg_backtrace_only : Config :=
  { cfg_all with LOGMGR_USING_CMBACKTRACE := false }

/-- The platform console of the examples. -/
def uart0 : rt_device := { name := "uart0", open_flag := 0x003, tx := [] }

/-- The state at boot, before `logmgr_abort_init`, with the given records in
the store and no recovery file. -/
def boot_state (logs : List Bytes) : State :=
  { is_init := false,
    g_tsdb := { medium_ok := true, sec_size := 0, max_size := 0, logs := logs },
    g_console_dev := { name := "", open_flag := 0, tx := [] },
    g_def_device := none, abort_file := none, trace := [] }

/-- A running, initialised state: the virtual console is registered, the
platform console is bound, the store holds the given records. -/
def live_state (logs : List Bytes) : State :=
  { is_init := true,
    g_tsdb := { medium_ok := true, sec_size := 4096, max_size := 65536, logs := logs },
    g_console_dev := { name := "logmgr", open_flag := 0, tx := [] },
    g_def_device := some uart0, abort_file := none, trace := [] }

/-- An environment in which every outgoing call succeeds in full. -/
def env_ok : Env :=
  { fdb_tsl_append_ok := fun _ _ => true, open_ret := 3,
    write_ret := fun _ buf => buf.length,
    rt_device_write_ret := fun _ buf => buf.length,
    rt_device_register_ok := true, rt_device_find_ret := some uart0,
    call_ret := fun _ => 0 }

/-- Every call made from a hook reports an error. -/
def env_calls_fail : Env := { env_ok with call_ret := fun _ => -1 }

/-- The store rejects every append. -/
def env_store_full : Env := { env_ok with fdb_tsl_append_ok := fun _ _ => false }

/-- The recovery file cannot be opened. -/
def env_open_fails : Env := { env_ok with open_ret := -1 }

/-- C1, counterexample. With the store rejecting the append, a write of the
three bytes 1, 2, 3 to the initialised virtual console, the platform console
being bound, does not return 3 and makes no `rt_device_write` call: it returns
0 and the platform console has put out nothing. -/
theorem console_write_store_full_counterexample :
    (live_state []).is_init = true ∧
    (live_state []).g_def_device = some uart0 ∧
    env_store_full.fdb_tsl_append_ok (live_state []).g_tsdb.logs [1, 2, 3] = false ∧
    (_console_write cfg_all env_store_full (live_state []) 0 [1, 2, 3]).1 ≠ [1, 2, 3].length ∧
    (_console_write cfg_all env_store_full (live_state []) 0 [1, 2, 3]).1 = 0 ∧
    (_console_write cfg_all env_store_full (live_state []) 0 [1, 2, 3]).2.trace
      = [Event.fdb_tsl_append [1, 2, 3]] ∧
    (_console_write cfg_all env_store_full (live_state []) 0 [1, 2, 3]).2.g_def_device
      = some uart0 := by
  decide

/-- C1, amended. In a build with FlashDB, after initialisation, when the
store's append fails the write returns 0 at once: the only outgoing call is the
append attempt, nothing is forwarded to the original console device, and no
other state changes. -/
theorem console_write_append_failure (cfg : Config) (env : Env) (s : State) (pos : Int)
    (buffer : Bytes) (hcfg : cfg.PKG_USING_FLASHDB = true) (hinit : s.is_init = true)
    (hfail : env.fdb_tsl_append_ok s.g_tsdb.logs buffer = false) :
    _console_write cfg env s pos buffer = (0, s.emit (Event.fdb_tsl_append buffer)) := by
  simp [_console_write, fdb_tsl_append, hcfg, hinit, hfail]

/-- C1, amended, at a concrete input. -/
theorem console_write_append_failure_witness :
    _console_write cfg_all env_store_full (live_state [[9]]) 0 [1, 2, 3]
      = (0, (live_state [[9]]).emit (Event.fdb_tsl_append [1, 2, 3])) :=
  console_write_append_failure cfg_all env_store_full (live_state [[9]]) 0 [1, 2, 3]
    (by decide) (by decide) (by decide)

/-- C2. In a build with FlashDB, after initialisation, with an append that
succeeds and an original console device `d` bound, a write of `buffer` makes
exactly two outgoing calls, in this order: the append of `buffer` to the store
and the write of the same `buffer` to `d` (with the stream flag forced). The
store gains `buffer` as its last record, the open flag of `d` is restored, and
the call returns the length of `buffer` whatever `rt_device_write` returns. -/
theorem console_write_fan_out (cfg : Config) (env : Env) (s : State) (pos : Int)
    (buffer : Bytes) (d : rt_device) (hcfg : cfg.PKG_USING_FLASHDB = true)
    (hinit : s.is_init = true)
    (hok : env.fdb_tsl_append_ok s.g_tsdb.logs buffer = true)
    (hdev : s.g_def_device = some d) :
    (_console_write cfg env s pos buffer).1 = buffer.length ∧
    (_console_write cfg env s pos buffer).2.trace
      = s.trace ++ [Event.fdb_tsl_append buffer,
          Event.rt_device_write d.name ((d.open_flag ||| cfg.RT_DEVICE_FLAG_STREAM) % 65536)
            0 buffer] ∧
    (_console_write cfg env s pos buffer).2.g_tsdb.logs = s.g_tsdb.logs ++ [buffer] ∧
    (_console_write cfg env s pos buffer).2.g_def_device
      = some { d with tx := d.tx ++ buffer.take (env.rt_device_write_ret
          { d with open_flag := (d.open_flag ||| cfg.RT_DEVICE_FLAG_STREAM) % 65536 }
          buffer) } := by
  simp [_console_write, _console_write_forward, fdb_tsl_append, rt_device_write, State.emit,
    hcfg, hinit, hok, hdev]

/-- C2 at a concrete input: the console reports a short write of one byte and
the call still returns 3. -/
theorem console_write_fan_out_witness :
    (_console_write cfg_all { env_ok with rt_device_write_ret := fun _ _ => 1 }
        (live_state []) 0 [1, 2, 3]).1 = [1, 2, 3].length ∧
    (_console_write cfg_all { env_ok with rt_device_write_ret := fun _ _ => 1 }
        (live_state []) 0 [1, 2, 3]).2.trace
      = (live_state []).trace ++ [Event.fdb_tsl_append [1, 2, 3],
          Event.rt_device_write uart0.name
            ((uart0.open_flag ||| cfg_all.RT_DEVICE_FLAG_STREAM) % 65536) 0 [1, 2, 3]] ∧
    (_console_write cfg_all { env_ok with rt_device_write_ret := fun _ _ => 1 }
        (live_state []) 0 [1, 2, 3]).2.g_tsdb.logs = (live_state []).g_tsdb.logs ++ [[1, 2, 3]] ∧
    (_console_write cfg_all { env_ok with rt_device_write_ret := fun _ _ => 1 }
        (live_state []) 0 [1, 2, 3]).2.g_def_device
      = some { uart0 with tx := uart0.tx ++ [1, 2, 3].take 1 } :=
  console_write_fan_out cfg_all { env_ok with rt_device_write_ret := fun _ _ => 1 }
    (live_state []) 0 [1, 2, 3] uart0 (by decide) (by decide) (by decide) (by decide)

/-! ## Boot recovery: auxiliary lemmas -/

theorem written_data_append (a b : List Event) :
    written_data (a ++ b) = written_data a ++ written_data b := by
  simp [written_data]

theorem pkgs_init_packages_tsdb (cfg : Config) (s : State) :
    (_logmgr_pkgs_init_packages cfg s).2.g_tsdb = s.g_tsdb := by
  unfold _logmgr_pkgs_init_packages
  cases cfg.LOGMGR_USING_CMBACKTRACE <;> cases cfg.PKG_USING_KDB <;>
    cases cfg.PKG_USING_SYS_LOAD_MONITOR <;> rfl

theorem pkgs_init_packages_file (cfg : Config) (s : State) :
    (_logmgr_pkgs_init_packages cfg s).2.abort_file = s.abort_file := by
  unfold _logmgr_pkgs_init_packages
  cases cfg.LOGMGR_USING_CMBACKTRACE <;> cases cfg.PKG_USING_KDB <;>
    cases cfg.PKG_USING_SYS_LOAD_MONITOR <;> rfl

theorem pkgs_init_packages_trace (cfg : Config) (s : State) :
    ∃ t, (_logmgr_pkgs_init_packages cfg s).2.trace = s.trace ++ t ∧
      (∀ e ∈ t, e.is_file_call = false) ∧ written_data t = [] ∧
      Event.fdb_tsl_iter ∉ t ∧ Event.fdb_tsl_clean ∉ t := by
  unfold _logmgr_pkgs_init_packages
  cases cfg.LOGMGR_USING_CMBACKTRACE <;> cases cfg.PKG_USING_KDB <;>
    cases cfg.PKG_USING_SYS_LOAD_MONITOR <;>
    simp [State.emit, Event.is_file_call, written_data, Event.written]

theorem tsl_cb_eq (cfg : Config) (env : Env) (tsl : Bytes) (fd : Int) (s : State)
    (h : tsl.length ≤ cfg.LOGMGR_FLASHDB_MAX_LEN) :
    _logmgr_tsl_cb cfg env tsl fd s = some (false, (write env s fd tsl).2) := by
  simp [_logmgr_tsl_cb, Nat.not_lt.mpr h]

theorem write_tsdb (env : Env) (s : State) (fd : Int) (buf : Bytes) :
    (write env s fd buf).2.g_tsdb = s.g_tsdb := by
  unfold write
  simp only [State.emit]
  split <;> rfl

theorem iter_loop_tsdb (cfg : Config) (env : Env) (fd : Int) :
    ∀ (logs : List Bytes) (s s1 : State),
      fdb_tsl_iter_loop (fun tsl st => _logmgr_tsl_cb cfg env tsl fd st) logs s = some s1 →
      s1.g_tsdb = s.g_tsdb := by
  intro logs
  induction logs with
  | nil =>
    intro s s1 h
    simp only [fdb_tsl_iter_loop, Option.some.injEq] at h
    rw [h]
  | cons r rest ih =>
    intro s s1 h
    by_cases hr : r.length ≤ cfg.LOGMGR_FLASHDB_MAX_LEN
    · simp only [fdb_tsl_iter_loop, tsl_cb_eq cfg env r fd s hr] at h
      rw [ih _ _ h, write_tsdb]
    · simp [fdb_tsl_iter_loop, _logmgr_tsl_cb, Nat.lt_of_not_le hr] at h

/-- A recovery pass that does not report failure leaves a store that opens
and holds no record. -/
theorem pkgs_init_success (cfg : Config) (env : Env) (s : State) (r : Int) (s1 : State)
    (hcfg : cfg.PKG_USING_FLASHDB = true)
    (h : _logmgr_pkgs_init cfg env s = some (r, s1)) (hr : ¬ r < 0) :
    s1.g_tsdb.medium_ok = true ∧ s1.g_tsdb.logs = [] := by
  unfold _logmgr_pkgs_init at h
  simp only [hcfg, if_true] at h
  split at h
  · simp only [Option.some.injEq, Prod.mk.injEq] at h
    exact absurd (by omega) hr
  · rename_i hmed
    have hmed1 : s.g_tsdb.medium_ok = true := by
      simpa [fdb_tsdb_init, fdb_tsdb_control_max_size, fdb_tsdb_control_sec_size, State.emit]
        using hmed
    split at h
    · split at h
      · simp only [Option.some.injEq, Prod.mk.injEq] at h
        exact absurd (by omega) hr
      · split at h
        · simp at h
        · rename_i s4 hiter
          simp only [Option.some.injEq] at h
          have h4 := iter_loop_tsdb cfg env _ _ _ _ hiter
          have hs1 := congrArg Prod.snd h
          simp only at hs1
          rw [← hs1, pkgs_init_packages_tsdb]
          simp only [close, fdb_tsl_clean, State.emit, h4]
          simpa [open_, fdb_tsl_query_count, lseek_end, fdb_tsdb_init, fdb_tsdb_control_max_size,
            fdb_tsdb_control_sec_size, State.emit, apply_ite] using hmed1
    · rename_i hcount
      simp only [Option.some.injEq] at h
      have hs1 := congrArg Prod.snd h
      simp only at hs1
      rw [← hs1, pkgs_init_packages_tsdb]
      simp only [fdb_tsl_query_count, count_pending, fdb_tsdb_init, fdb_tsdb_control_max_size,
        fdb_tsdb_control_sec_size, State.emit, gt_iff_lt, not_lt, Nat.le_zero,
        List.length_eq_zero] at hcount ⊢
      exact ⟨hmed1, hcount⟩

/-- The recovery pass on a store that opens and holds no record returns 0,
makes no file call and leaves the file system as it was. -/
theorem pkgs_init_empty (cfg : Config) (env : Env) (s : State)
    (hcfg : cfg.PKG_USING_FLASHDB = true) (hmed : s.g_tsdb.medium_ok = true)
    (hlogs : s.g_tsdb.logs = []) :
    ∃ s1 t, _logmgr_pkgs_init cfg env s = some (0, s1) ∧ s1.abort_file = s.abort_file ∧
      s1.trace = s.trace ++ t ∧ (∀ e ∈ t, e.is_file_call = false) ∧ written_data t = [] := by
  obtain ⟨t, ht, hf, hw, _⟩ := pkgs_init_packages_trace cfg
    (fdb_tsl_query_count (fdb_tsdb_init cfg (fdb_tsdb_control_max_size
      (fdb_tsdb_control_sec_size s LOGMGR_FLASHDB_SECTOR_SIZE)
      cfg.LOGMGR_FLASHDB_MAX_SIZE)).2 0 0x7FFFFFFF).2
  refine ⟨(_logmgr_pkgs_init_packages cfg
      (fdb_tsl_query_count (fdb_tsdb_init cfg (fdb_tsdb_control_max_size
        (fdb_tsdb_control_sec_size s LOGMGR_FLASHDB_SECTOR_SIZE)
        cfg.LOGMGR_FLASHDB_MAX_SIZE)).2 0 0x7FFFFFFF).2).2,
    [Event.fdb_tsdb_control_sec_size LOGMGR_FLASHDB_SECTOR_SIZE,
      Event.fdb_tsdb_control_max_size cfg.LOGMGR_FLASHDB_MAX_SIZE,
      Event.fdb_tsdb_init "logmgr" cfg.LOGMGR_FLASHDB_PART_NAME cfg.LOGMGR_FLASHDB_MAX_LEN,
      Event.fdb_tsl_query_count 0 0x7FFFFFFF] ++ t, ?_, ?_, ?_, ?_, ?_⟩
  · simp [_logmgr_pkgs_init, hcfg, fdb_tsdb_control_sec_size, fdb_tsdb_control_max_size,
      fdb_tsdb_init, fdb_tsl_query_count, count_pending, State.emit, hmed, hlogs]
    rfl
  · rw [pkgs_init_packages_file]
    rfl
  · rw [ht]
    simp [fdb_tsdb_control_sec_size, fdb_tsdb_control_max_size,
      fdb_tsdb_init, fdb_tsl_query_count, State.emit]
  · intro e he
    rcases List.mem_append.mp he with h | h
    · simp only [List.mem_cons, List.mem_singleton, List.not_mem_nil, or_false] at h
      rcases h with h | h | h | h <;> rw [h] <;> rfl
    · exact hf e h
  · rw [written_data_append, hw]
    rfl

/-! ## Boot recovery: theorems -/

/-- C3. In a build with FlashDB, at boot (`is_init` still false), with at
least one pending record in the store and an `open` of the recovery file that
returns a negative descriptor: `_logmgr_pkgs_init` returns -1 and
`logmgr_abort_init` returns -1; the records of the store are those held
before the call and the file system is unchanged; the calls made by the
recovery pass include neither `fdb_tsl_iter` nor `fdb_tsl_clean` nor any
`write`; and `is_init` stays false. -/
theorem recovery_open_failure_keeps_store (cfg : Config) (env : Env) (s : State)
    (hcfg : cfg.PKG_USING_FLASHDB = true) (hpending : 0 < count_pending s.g_tsdb)
    (hopen : env.open_ret < 0) (hboot : s.is_init = false) :
    ∃ s1 s2 t, _logmgr_pkgs_init cfg env s = some (-1, s1) ∧
      s1.g_tsdb.logs = s.g_tsdb.logs ∧ s1.abort_file = s.abort_file ∧
      s1.trace = s.trace ++ t ∧
      Event.fdb_tsl_iter ∉ t ∧ Event.fdb_tsl_clean ∉ t ∧ written_data t = [] ∧
      logmgr_abort_init cfg env s = some (-1, s2) ∧
      s2.g_tsdb.logs = s.g_tsdb.logs ∧ s2.abort_file = s.abort_file ∧ s2.is_init = false := by
  have key : ∃ s1 t, _logmgr_pkgs_init cfg env s = some (-1, s1) ∧
      s1.g_tsdb.logs = s.g_tsdb.logs ∧ s1.abort_file = s.abort_file ∧
      s1.is_init = s.is_init ∧ s1.trace = s.trace ++ t ∧
      Event.fdb_tsl_iter ∉ t ∧ Event.fdb_tsl_clean ∉ t ∧ written_data t = [] := by
    cases hmed : s.g_tsdb.medium_ok
    · refine ⟨(fdb_tsdb_init cfg (fdb_tsdb_control_max_size
          (fdb_tsdb_control_sec_size s LOGMGR_FLASHDB_SECTOR_SIZE)
          cfg.LOGMGR_FLASHDB_MAX_SIZE)).2.emit
          (Event.LOG_E "logmgr flashdb tsdb initialized failed."),
        [Event.fdb_tsdb_control_sec_size LOGMGR_FLASHDB_SECTOR_SIZE,
          Event.fdb_tsdb_control_max_size cfg.LOGMGR_FLASHDB_MAX_SIZE,
          Event.fdb_tsdb_init "logmgr" cfg.LOGMGR_FLASHDB_PART_NAME cfg.LOGMGR_FLASHDB_MAX_LEN,
          Event.LOG_E "logmgr flashdb tsdb initialized failed."], ?_⟩
      simp [_logmgr_pkgs_init, hcfg, fdb_tsdb_control_sec_size, fdb_tsdb_control_max_size,
        fdb_tsdb_init, State.emit, hmed, written_data, Event.written]
    · refine ⟨(open_ cfg env (fdb_tsl_query_count (fdb_tsdb_init cfg (fdb_tsdb_control_max_size
          (fdb_tsdb_control_sec_size s LOGMGR_FLASHDB_SECTOR_SIZE)
          cfg.LOGMGR_FLASHDB_MAX_SIZE)).2 0 0x7FFFFFFF).2).2.emit
          (Event.LOG_E "open logmgr abort file failed."),
        [Event.fdb_tsdb_control_sec_size LOGMGR_FLASHDB_SECTOR_SIZE,
          Event.fdb_tsdb_control_max_size cfg.LOGMGR_FLASHDB_MAX_SIZE,
          Event.fdb_tsdb_init "logmgr" cfg.LOGMGR_FLASHDB_PART_NAME cfg.LOGMGR_FLASHDB_MAX_LEN,
          Event.fdb_tsl_query_count 0 0x7FFFFFFF,
          Event.open_ cfg.LOGMGR_ABORT_FILE_PATH,
          Event.LOG_E "open logmgr abort file failed."], ?_⟩
      have hp : 0 < s.g_tsdb.logs.length := hpending
      simp [_logmgr_pkgs_init, hcfg, fdb_tsdb_control_sec_size, fdb_tsdb_control_max_size,
        fdb_tsdb_init, fdb_tsl_query_count, count_pending, open_, State.emit, hmed, hp, hopen,
        written_data, Event.written]
  obtain ⟨s1, t, h1, h2, h3, h4, h5, h6, h7, h8⟩ := key
  refine ⟨s1, s1.emit (Event.LOG_E "logmgr packages initialize failed."), t,
    h1, h2, h3, h5, h6, h7, h8, ?_, ?_, ?_, ?_⟩
  · simp [logmgr_abort_init, hboot, h1]
  · simpa [State.emit] using h2
  · simpa [State.emit] using h3
  · simpa [State.emit, hboot] using h4

/-- C3 at a concrete input: three pending records, `open` returns -1. -/
theorem recovery_open_failure_keeps_store_witness :
    ∃ s1 s2 t, _logmgr_pkgs_init cfg_all env_open_fails (boot_state [[1, 2], [3], [4, 5, 6]])
        = some (-1, s1) ∧
      s1.g_tsdb.logs = (boot_state [[1, 2], [3], [4, 5, 6]]).g_tsdb.logs ∧
      s1.abort_file = (boot_state [[1, 2], [3], [4, 5, 6]]).abort_file ∧
      s1.trace = (boot_state [[1, 2], [3], [4, 5, 6]]).trace ++ t ∧
      Event.fdb_tsl_iter ∉ t ∧ Event.fdb_tsl_clean ∉ t ∧ written_data t = [] ∧
      logmgr_abort_init cfg_all env_open_fails (boot_state [[1, 2], [3], [4, 5, 6]])
        = some (-1, s2) ∧
      s2.g_tsdb.logs = (boot_state [[1, 2], [3], [4, 5, 6]]).g_tsdb.logs ∧
      s2.abort_file = (boot_state [[1, 2], [3], [4, 5, 6]]).abort_file ∧ s2.is_init = false :=
  recovery_open_failure_keeps_store cfg_all env_open_fails (boot_state [[1, 2], [3], [4, 5, 6]])
    (by decide) (by decide) (by decide) (by decide)

/-- C6. In a build with FlashDB, for every initial state and every
environment, when the recovery pass returns a value that is not negative
(success), the store holds no pending record afterwards. -/
theorem recovery_success_clears_store (cfg : Config) (env : Env) (s : State) (r : Int)
    (s1 : State) (hcfg : cfg.PKG_USING_FLASHDB = true)
    (hrun : _logmgr_pkgs_init cfg env s = some (r, s1)) (hsuccess : ¬ r < 0) :
    count_pending s1.g_tsdb = 0 := by
  have h := (pkgs_init_success cfg env s r s1 hcfg hrun hsuccess).2
  simp [count_pending, h]

/-- C6 at a concrete input: a pass over three records returns 0 and leaves
no pending record. -/
theorem recovery_success_clears_store_witness :
    ∃ s1, _logmgr_pkgs_init cfg_all env_ok (boot_state [[1, 2], [3], [4, 5, 6]]) = some (0, s1) ∧
      count_pending s1.g_tsdb = 0 :=
  ⟨_, rfl, recovery_success_clears_store cfg_all env_ok (boot_state [[1, 2], [3], [4, 5, 6]]) 0 _
    (by decide) rfl (by decide)⟩

/-- C7. In a build with FlashDB, after a recovery pass that succeeded, a second
pass with no append in between (in any environment) returns 0, finds no
pending record, makes no file call (no `open`, `lseek`, `write` or `close`)
and leaves the recovery file exactly as the first pass left it. In
particular, on a store that opens and holds no record the pass returns 0,
makes no file call, writes nothing and leaves the file system as it was, so
no recovery file is created. -/
theorem recovery_idempotent (cfg : Config) (env env2 : Env) (s : State) (r : Int) (s1 : State)
    (hcfg : cfg.PKG_USING_FLASHDB = true)
    (hrun : _logmgr_pkgs_init cfg env s = some (r, s1)) (hsuccess : ¬ r < 0) :
    (∃ s2 t, _logmgr_pkgs_init cfg env2 s1 = some (0, s2) ∧
      count_pending s1.g_tsdb = 0 ∧
      s2.abort_file = s1.abort_file ∧
      s2.trace = s1.trace ++ t ∧ (∀ e ∈ t, e.is_file_call = false) ∧ written_data t = []) ∧
    (∀ (env0 : Env) (s0 : State), s0.g_tsdb.medium_ok = true → count_pending s0.g_tsdb = 0 →
      ∃ s2 t, _logmgr_pkgs_init cfg env0 s0 = some (0, s2) ∧
        s2.abort_file = s0.abort_file ∧
        s2.trace = s0.trace ++ t ∧ (∀ e ∈ t, e.is_file_call = false) ∧ written_data t = []) := by
  obtain ⟨hmed, hlogs⟩ := pkgs_init_success cfg env s r s1 hcfg hrun hsuccess
  constructor
  · obtain ⟨s2, t, h1, h2, h3, h4, h5⟩ := pkgs_init_empty cfg env2 s1 hcfg hmed hlogs
    exact ⟨s2, t, h1, by simp [count_pending, hlogs], h2, h3, h4, h5⟩
  · intro env0 s0 hmed0 hcount
    exact pkgs_init_empty cfg env0 s0 hcfg hmed0 (List.length_eq_zero.mp hcount)

/-- C7 at a concrete input: a first pass over three records, then a second
pass; and a pass at boot on an empty store with no recovery file. -/
theorem recovery_idempotent_witness :
    (∃ s1, _logmgr_pkgs_init cfg_all env_ok (boot_state [[1, 2], [3], [4, 5, 6]]) = some (0, s1) ∧
      s1.abort_file = some [1, 2, 3, 4, 5, 6] ∧
      ∃ s2 t, _logmgr_pkgs_init cfg_all env_open_fails s1 = some (0, s2) ∧
        count_pending s1.g_tsdb = 0 ∧
        s2.abort_file = s1.abort_file ∧
        s2.trace = s1.trace ++ t ∧ (∀ e ∈ t, e.is_file_call = false) ∧ written_data t = []) ∧
    (∃ s2 t, _logmgr_pkgs_init cfg_all env_ok (boot_state []) = some (0, s2) ∧
        s2.abort_file = (boot_state []).abort_file ∧
        s2.trace = (boot_state []).trace ++ t ∧ (∀ e ∈ t, e.is_file_call = false) ∧
        written_data t = []) :=
  ⟨⟨_, rfl, rfl,
      (recovery_idempotent cfg_all env_ok env_open_fails (boot_state [[1, 2], [3], [4, 5, 6]]) 0 _
        (by decide) rfl (by decide)).1⟩,
    (recovery_idempotent cfg_all env_ok env_open_fails (boot_state [[1, 2], [3], [4, 5, 6]]) 0 _
        (by decide) rfl (by decide)).2 env_ok (boot_state []) (by decide) (by decide)⟩

/-! ## The abort hooks: auxiliary lemmas -/

theorem run_busy_wait (env : Env) :
    ∀ (n : Nat) (h : HookRun), h.pc = HookPc.busy_wait → h._continue = 1 →
      HookRun.run env n h = h := by
  intro n
  induction n with
  | zero =>
    intro h _ _
    rfl
  | succ k ih =>
    intro h hpc hc
    have hstep : h.step env = h := by
      simp [HookRun.step, hpc, hc]
    simp only [HookRun.run, hstep]
    exact ih h hpc hc

/-- An activation that is in its body with `_continue = 1`: after `n` steps,
while `n` does not exceed the number of calls left, control is still in the
body and exactly the next `n` calls have been made; after more steps control
is at the loop and all the calls have been made. `_continue` is still 1. -/
theorem run_body (env : Env) :
    ∀ (n : Nat) (h : HookRun), h.pc = HookPc.body → h._continue = 1 →
      (HookRun.run env n h).pc
        = (if n ≤ h.todo.length then HookPc.body else HookPc.busy_wait) ∧
      (HookRun.run env n h).trace = h.trace ++ h.todo.take n ∧
      (HookRun.run env n h)._continue = 1 := by
  intro n
  induction n with
  | zero =>
    intro h hpc hc
    simp [HookRun.run, hpc, hc]
  | succ k ih =>
    intro h hpc hc
    cases htodo : h.todo with
    | nil =>
      have hstep : h.step env = { h with pc := HookPc.busy_wait } := by
        simp [HookRun.step, hpc, htodo]
      simp only [HookRun.run, hstep]
      rw [run_busy_wait env k
        { pc := HookPc.busy_wait, todo := h.todo, _continue := h._continue,
          last_ret := h.last_ret, trace := h.trace } rfl hc]
      simp [hc]
    | cons e rest =>
      have hstep : h.step env
          = { h with todo := rest, last_ret := env.call_ret e, trace := h.trace ++ [e] } := by
        simp [HookRun.step, hpc, htodo]
      simp only [HookRun.run, hstep]
      obtain ⟨h1, h2, h3⟩ := ih
        { h with todo := rest, last_ret := env.call_ret e, trace := h.trace ++ [e] } hpc hc
      refine ⟨?_, ?_, h3⟩
      · rw [h1]
        simp
      · rw [h2]
        simp

theorem run_body_pc (env : Env) (n : Nat) (l : List Event) :
    (HookRun.run env n
        { pc := HookPc.body, todo := l, _continue := 1, last_ret := 0, trace := [] }).pc
      = if n ≤ l.length then HookPc.body else HookPc.busy_wait :=
  (run_body env n _ rfl rfl).1

theorem run_body_trace (env : Env) (n : Nat) (l : List Event) :
    (HookRun.run env n
        { pc := HookPc.body, todo := l, _continue := 1, last_ret := 0, trace := [] }).trace
      = l.take n := by
  rw [(run_body env n _ rfl rfl).2.1]
  simp

/-- Both hooks begin with the same two calls: the console switch to the
virtual console device and the banner. -/
theorem hooks_share_switch_and_banner (cfg : Config) (s : State) (context : Nat)
    (ex func : String) (line : Nat) :
    (logmgr_assert_hook_body cfg s ex func line).take 2
      = _logmgr_console_switch s.g_console_dev ++ printf_time_log cfg ∧
    (logmgr_exception_hook_body cfg s context).take 2
      = _logmgr_console_switch s.g_console_dev ++ printf_time_log cfg := by
  simp [logmgr_assert_hook_body, logmgr_exception_hook_body, _logmgr_console_switch,
    printf_time_log]

/-- In a build where `PKG_USING_CMBACKTRACE` is defined only together with
`LOGMGR_USING_CMBACKTRACE`, every section header printed by the assert hook is
printed by the exception hook as well. -/
theorem assert_sections_subset_of_gates_agree (cfg : Config) (s : State) (context : Nat)
    (ex func : String) (line : Nat) (log_name : String)
    (hgate : cfg.PKG_USING_CMBACKTRACE = true → cfg.LOGMGR_USING_CMBACKTRACE = true)
    (h : runs_section log_name (logmgr_assert_hook_body cfg s ex func line) = true) :
    runs_section log_name (logmgr_exception_hook_body cfg s context) = true := by
  unfold runs_section at h ⊢
  rw [decide_eq_true_eq] at h ⊢
  unfold logmgr_assert_hook_body at h
  unfold logmgr_exception_hook_body
  cases hp : cfg.PKG_USING_CMBACKTRACE
  · simp only [hp, Bool.false_eq_true, if_false, List.append_nil, List.mem_append] at h
    simp only [List.mem_append]
    rcases h with h | h
    · exact Or.inl (Or.inl (Or.inl (Or.inl (Or.inl (Or.inl h)))))
    · exact Or.inl (Or.inl (Or.inl (Or.inl (Or.inl (Or.inr h)))))
  · simp only [hp, if_true, List.mem_append] at h
    simp only [hgate hp, if_true, List.mem_append]
    rcases h with (h | h) | h | h
    · exact Or.inl (Or.inl (Or.inl (Or.inl (Or.inl (Or.inl h)))))
    · exact Or.inl (Or.inl (Or.inl (Or.inl (Or.inl (Or.inr h)))))
    · exact Or.inl (Or.inl (Or.inl (Or.inl (Or.inr (Or.inl h)))))
    · simp [section_title] at h

theorem header_backtrace :
    print_header_log "CmBacktrace Log" = Producer.backtrace.section_header := by
  decide

theorem header_ipc :
    print_header_log "System IPC Log" = Producer.ipc_objects.section_header := by
  decide

theorem header_kernel_trace :
    print_header_log "Kernel Running Log" = Producer.kernel_trace.section_header := by
  decide

theorem header_system_load :
    print_header_log "System Load Log" = Producer.system_load.section_header := by
  decide

theorem header_memory :
    print_header_log "System Memory Log" = Producer.memory.section_header := by
  decide

theorem second_header_semaphore :
    printf_second_header_log "semaphore log"
      = [Event.rt_kprintf "\n/******  semaphore log  ******/\n"] := by
  decide

theorem second_header_event :
    printf_second_header_log "event log"
      = [Event.rt_kprintf "\n/******  event log  ******/\n"] := by
  decide

theorem second_header_mutex :
    printf_second_header_log "mutex log"
      = [Event.rt_kprintf "\n/******  mutex log  ******/\n"] := by
  decide

theorem second_header_mailbox :
    printf_second_header_log "mailbox log"
      = [Event.rt_kprintf "\n/******  mailbox log  ******/\n"] := by
  decide

theorem second_header_msgqueue :
    printf_second_header_log "messagqueue log"
      = [Event.rt_kprintf "\n/******  messagqueue log  ******/\n"] := by
  decide

theorem second_header_sys_memory :
    printf_second_header_log "sys memory log"
      = [Event.rt_kprintf "\n/******  sys memory log  ******/\n"] := by
  decide

theorem second_header_js_heap :
    printf_second_header_log "js heap log"
      = [Event.rt_kprintf "\n/******  js heap log  ******/\n"] := by
  decide

/-- The IPC producer of the code makes the calls of the enabled IPC parts, in
order. -/
theorem ipc_log_eq_parts (cfg : Config) : _logmgr_ipc_log cfg = parts_dump (ipc_parts cfg) := by
  unfold _logmgr_ipc_log parts_dump ipc_parts
  rw [second_header_semaphore, second_header_event, second_header_mutex,
    second_header_mailbox, second_header_msgqueue]
  cases h1 : cfg.RT_USING_SEMAPHORE <;> cases h2 : cfg.RT_USING_EVENT <;>
    cases h3 : cfg.RT_USING_MUTEX <;> cases h4 : cfg.RT_USING_MAILBOX <;>
    cases h5 : cfg.RT_USING_MESSAGEQUEUE <;> simp

/-- The memory producer of the code makes the calls of the enabled memory
parts, in order. -/
theorem memory_log_eq_parts (cfg : Config) :
    _logmgr_memory_log cfg = parts_dump (memory_parts cfg) := by
  unfold _logmgr_memory_log parts_dump memory_parts
  rw [second_header_sys_memory, second_header_js_heap]
  cases h1 : cfg.RT_USING_HEAP <;> cases h2 : cfg.RT_USING_MEMHEAP_AS_HEAP <;>
    cases h3 : cfg.PKG_JMEM_STATS <;> simp

/-- A call of `logmgr_abort_init` that performs the initialisation registers
the virtual console under the name "logmgr". -/
theorem abort_init_registers_console (cfg : Config) (env : Env) (s s1 : State)
    (hboot : s.is_init = false) (h : logmgr_abort_init cfg env s = some (0, s1)) :
    s1.is_init = true ∧ s1.g_console_dev.name = LOGMGR_CONSOLE_NAME := by
  unfold logmgr_abort_init at h
  simp only [hboot, Bool.false_eq_true, if_false] at h
  split at h
  · simp at h
  · rename_i r s0 _
    split at h
    · simp at h
    · split at h
      · simp at h
      · rename_i hc
        simp only [Option.some.injEq, Prod.mk.injEq, true_and] at h
        rw [← h]
        simp only [State.emit, true_and]
        unfold _logmgr_console_init at hc ⊢
        unfold rt_device_register at hc ⊢
        cases hreg : env.rt_device_register_ok
        · simp [hreg] at hc
        · simp only [State.emit, hreg, if_true, Bool.not_true, Bool.false_eq_true, if_false]
          split <;> rfl

/-! ## The abort hooks: theorems -/

/-- C8. For every build, state, fault context, assert triple and every value
the calls made from the hooks may return, neither hook ever reaches its
return: at every step count the program point of `logmgr_exception_hook` is
the body (while calls remain) or the busy-wait loop, never the point after the
loop, and the same for `logmgr_assert_hook`. Each hook reaches the loop after
finitely many steps and from then on every step leaves it at the loop. -/
theorem hooks_never_return (cfg : Config) (env : Env) (s : State) (context : Nat)
    (ex func : String) (line : Nat) :
    (∀ n, ((logmgr_exception_hook cfg s context).run env n).pc ≠ HookPc.returned) ∧
    (∀ n, ((logmgr_assert_hook cfg s ex func line).run env n).pc ≠ HookPc.returned) ∧
    (∀ m, ((logmgr_exception_hook cfg s context).run env
        ((logmgr_exception_hook_body cfg s context).length + 1 + m)).pc = HookPc.busy_wait) ∧
    (∀ m, ((logmgr_assert_hook cfg s ex func line).run env
        ((logmgr_assert_hook_body cfg s ex func line).length + 1 + m)).pc = HookPc.busy_wait) := by
  refine ⟨?_, ?_, ?_, ?_⟩
  · intro n
    unfold logmgr_exception_hook
    rw [run_body_pc]
    split <;> decide
  · intro n
    unfold logmgr_assert_hook
    rw [run_body_pc]
    split <;> decide
  · intro m
    unfold logmgr_exception_hook
    rw [run_body_pc, if_neg (by omega)]
  · intro m
    unfold logmgr_assert_hook
    rw [run_body_pc, if_neg (by omega)]

/-- C9. For every build and fault context, in a state where the virtual
console is registered under its name "logmgr", the calls made by
`logmgr_exception_hook` are those of the fault sequence of the specification,
in that order: the console switch to "logmgr", the banner line with the build
date and time, then for each enabled producer, in the order backtrace, IPC
objects, kernel trace, system load, memory, the five lines of its section
header immediately followed by its dump (the backtrace producer called with
the fault context, the IPC and memory producers as the sub-header and lister
of each enabled part). After `n` steps exactly the first `n` of these calls
have been made, and once the busy-wait loop is reached the calls made are the
whole sequence and nothing else. -/
theorem fault_sequence_order (cfg : Config) (env : Env) (s : State) (context : Nat)
    (hreg : s.g_console_dev.name = LOGMGR_CONSOLE_NAME) :
    logmgr_exception_hook_body cfg s context = fault_sequence_spec cfg context ∧
    (∀ n, ((logmgr_exception_hook cfg s context).run env n).trace
      = (fault_sequence_spec cfg context).take n) ∧
    (∀ m, ((logmgr_exception_hook cfg s context).run env
        ((fault_sequence_spec cfg context).length + 1 + m)).pc = HookPc.busy_wait ∧
      ((logmgr_exception_hook cfg s context).run env
        ((fault_sequence_spec cfg context).length + 1 + m)).trace
        = fault_sequence_spec cfg context) := by
  have hbody : logmgr_exception_hook_body cfg s context = fault_sequence_spec cfg context := by
    unfold logmgr_exception_hook_body fault_sequence_spec _logmgr_console_switch printf_time_log
    rw [hreg, header_backtrace, header_ipc, header_kernel_trace, header_system_load,
      header_memory, ipc_log_eq_parts, memory_log_eq_parts]
    cases h1 : cfg.LOGMGR_USING_CMBACKTRACE <;> cases h2 : cfg.LOGMGR_USING_IPC_LOG <;>
      cases h3 : cfg.LOGMGR_USING_KDB <;> cases h4 : cfg.LOGMGR_USING_SYS_LOAD_MONITOR <;>
      cases h5 : cfg.LOGMGR_USING_MEMORY_LOG <;>
      simp [Producer.order, Producer.enabled, Producer.dump, LOGMGR_CONSOLE_NAME,
        h1, h2, h3, h4, h5]
  refine ⟨hbody, ?_, ?_⟩
  · intro n
    unfold logmgr_exception_hook
    rw [run_body_trace, hbody]
  · intro m
    unfold logmgr_exception_hook
    rw [run_body_pc, run_body_trace, hbody]
    constructor
    · rw [if_neg (by omega)]
    · rw [List.take_of_length_le (by omega)]

/-- C9 at a concrete input: the default build, the running state, fault
context 77. -/
theorem fault_sequence_order_witness :
    logmgr_exception_hook_body cfg_all (live_state []) 77 = fault_sequence_spec cfg_all 77 ∧
    (∀ n, ((logmgr_exception_hook cfg_all (live_state []) 77).run env_calls_fail n).trace
      = (fault_sequence_spec cfg_all 77).take n) ∧
    (∀ m, ((logmgr_exception_hook cfg_all (live_state []) 77).run env_calls_fail
        ((fault_sequence_spec cfg_all 77).length + 1 + m)).pc = HookPc.busy_wait ∧
      ((logmgr_exception_hook cfg_all (live_state []) 77).run env_calls_fail
        ((fault_sequence_spec cfg_all 77).length + 1 + m)).trace
        = fault_sequence_spec cfg_all 77) :=
  fault_sequence_order cfg_all env_calls_fail (live_state []) 77 (by decide)

/-- C10, the code at the failing build. With the CmBacktrace package selected
(`PKG_USING_CMBACKTRACE`) and the logmgr option `LOGMGR_USING_CMBACKTRACE` off,
`logmgr_assert_hook` prints the "CmBacktrace Log" section header and calls
the backtrace producer, while `logmgr_exception_hook` under the same build
runs no backtrace section; the two hooks do begin with the same console
switch and banner. -/
theorem assert_hook_backtrace_gate_mismatch :
    cfg_pkg_backtrace_only.PKG_USING_CMBACKTRACE = true ∧
    cfg_pkg_backtrace_only.LOGMGR_USING_CMBACKTRACE = false ∧
    ((logmgr_assert_hook cfg_pkg_backtrace_only (live_state []) "0" "main" 42).run env_calls_fail 9).pc
      = HookPc.busy_wait ∧
    ((logmgr_exception_hook cfg_pkg_backtrace_only (live_state []) 77).run env_calls_fail 37).pc
      = HookPc.busy_wait ∧
    runs_section "CmBacktrace Log"
      ((logmgr_assert_hook cfg_pkg_backtrace_only (live_state []) "0" "main" 42).run env_calls_fail 9).trace
      = true ∧
    Event.assert_hook "0" "main" 42 ∈
      ((logmgr_assert_hook cfg_pkg_backtrace_only (live_state []) "0" "main" 42).run env_calls_fail 9).trace ∧
    runs_section "CmBacktrace Log"
      ((logmgr_exception_hook cfg_pkg_backtrace_only (live_state []) 77).run env_calls_fail 37).trace
      = false ∧
    Event.exception_hook 77 ∉
      ((logmgr_exception_hook cfg_pkg_backtrace_only (live_state []) 77).run env_calls_fail 37).trace ∧
    ((logmgr_assert_hook cfg_pkg_backtrace_only (live_state []) "0" "main" 42).run env_calls_fail 9).trace.take 2
      = ((logmgr_exception_hook cfg_pkg_backtrace_only (live_state []) 77).run env_calls_fail 37).trace.take 2 := by
  decide

end Logmgr
